import Mathlib

/-!
Verification development for the onspotx-backend location-discovery service.

The TypeScript source is embedded shallowly:
* numbers (TS `number`) are modelled as real numbers `ℝ`;
* the Haversine distance (`DistanceUtil.calculateDistance`) is rendered with
  `Real.sin`, `Real.cos`, `Real.sqrt` and a piecewise model of `Math.atan2`;
* JS truthiness of numeric guards (`query.radius && ...`, `x || default`)
  is rendered explicitly: `0` counts as falsy;
* `Array.prototype.slice(0, e)` with a real-valued `e` is rendered by
  truncation toward zero and relative-to-end clamping, as in ECMAScript;
* `Array.prototype.sort` with the comparator `(a, b) => a.distance_km - b.distance_km`
  is a stable ascending sort by `distance_km`, rendered by `List.mergeSort`;
* methods reading the service field `this.mockPlaces` take the repository
  list as an explicit parameter (`...On repo`); the deployed instance uses
  the fixture constant `mockPlaces`;
* exceptions become `Except`, `null`/`undefined` become `Option`;
* wall-clock metadata (`processing_time_ms`, `timestamp`) is environment
  I/O and is outside the functional embedding.
-/

namespace OnSpotX

/-! ### Data model (src/common/interfaces/location.interface.ts) -/

structure Coordinates where
  lat : ℝ
  lng : ℝ

structure Location where
  lat : ℝ
  lng : ℝ
  address : String

/-- A `Location` is structurally a `Coordinates` in TS; the projection. -/
def Location.toCoords (l : Location) : Coordinates := ⟨l.lat, l.lng⟩

structure Place where
  id : String
  name : String
  category : String
  description : String
  distance_km : ℝ
  open_now : Bool
  image_url : String
  location : Location

/-- The `PlaceCategory` enum values (location.interface.ts). -/
def placeCategoryValues : List String :=
  ["restaurant", "cafe", "bar", "shop", "hotel", "attraction", "park",
   "hospital", "gas_station", "bank", "gym", "pharmacy", "event",
   "entertainment", "service"]

structure DiscoveryQuery where
  latitude : ℝ
  longitude : ℝ
  radius : Option ℝ
  category : Option String
  limit : Option ℝ

structure EffectiveQuery where
  latitude : ℝ
  longitude : ℝ
  radius : ℝ
  category : Option String
  limit : ℝ

structure DiscoveryResponse where
  results : List Place
  total : ℕ
  query : EffectiveQuery

/-! ### DistanceUtil (src/common/utils/distance.util.ts) -/

def EARTH_RADIUS_KM : ℝ := 6371

noncomputable def toRadians (degrees : ℝ) : ℝ := degrees * (Real.pi / 180)

open Classical

/-- Model of the JS primitive `Math.atan2 y x` (standard piecewise definition
on the reals; NaN inputs do not arise in the real-number model). -/
noncomputable def atan2 (y x : ℝ) : ℝ :=
  if 0 < x then Real.arctan (y / x)
  else if x < 0 ∧ 0 ≤ y then Real.arctan (y / x) + Real.pi
  else if x < 0 then Real.arctan (y / x) - Real.pi
  else if 0 < y then Real.pi / 2
  else if y < 0 then -(Real.pi / 2)
  else 0

/-- Model of the JS primitive `Math.round` (round half toward +infinity). -/
noncomputable def mathRound (x : ℝ) : ℝ := (⌊x + 1/2⌋ : ℤ)

/-- `DistanceUtil.calculateDistance`: Haversine great-circle distance in km,
rounded to 2 decimal places. -/
noncomputable def calculateDistance (point1 point2 : Coordinates) : ℝ :=
  let lat1Rad := toRadians point1.lat
  let lat2Rad := toRadians point2.lat
  let deltaLatRad := toRadians (point2.lat - point1.lat)
  let deltaLngRad := toRadians (point2.lng - point1.lng)
  let a := Real.sin (deltaLatRad / 2) * Real.sin (deltaLatRad / 2) +
           Real.cos lat1Rad * Real.cos lat2Rad *
           Real.sin (deltaLngRad / 2) * Real.sin (deltaLngRad / 2)
  let c := 2 * atan2 (Real.sqrt a) (Real.sqrt (1 - a))
  let distance := EARTH_RADIUS_KM * c
  mathRound (distance * 100) / 100

/-- `DistanceUtil.isValidLatitude` (the NaN test is vacuous on `ℝ`). -/
def isValidLatitude (lat : ℝ) : Prop := -90 ≤ lat ∧ lat ≤ 90

/-- `DistanceUtil.isValidLongitude`. -/
def isValidLongitude (lng : ℝ) : Prop := -180 ≤ lng ∧ lng ≤ 180

/-- `DistanceUtil.isValidCoordinates`. -/
def isValidCoordinates (c : Coordinates) : Prop :=
  isValidLatitude c.lat ∧ isValidLongitude c.lng

/-! ### MockDataService fixture data (src/discovery/services/mock-data.service.ts) -/

def rest001 : Place :=
  { id := "rest_001", name := "Trattoria Alfredo", category := "restaurant",
    description := "Authentic Italian pasta, great ambiance and fresh ingredients.",
    distance_km := 0, open_now := true,
    image_url := "https://cdn.onspotx.ai/spots/alfredo.jpg",
    location := ⟨40.7130, -74.0050, "123 Main St, New York, NY 10001"⟩ }

def cafe002 : Place :=
  { id := "cafe_002", name := "Blue Bottle Coffee", category := "cafe",
    description := "Artisanal coffee roasters with specialty single-origin beans.",
    distance_km := 0, open_now := true,
    image_url := "https://cdn.onspotx.ai/spots/blue-bottle.jpg",
    location := ⟨40.7140, -74.0070, "456 Broadway, New York, NY 10012"⟩ }

def bar003 : Place :=
  { id := "bar_003", name := "The Rooftop Lounge", category := "bar",
    description := "Upscale cocktail bar with stunning city views.",
    distance_km := 0, open_now := false,
    image_url := "https://cdn.onspotx.ai/spots/rooftop-lounge.jpg",
    location := ⟨40.7120, -74.0040, "789 5th Ave, New York, NY 10019"⟩ }

def shop004 : Place :=
  { id := "shop_004", name := "Central Park Bookstore", category := "shop",
    description := "Independent bookstore with rare finds and cozy reading nooks.",
    distance_km := 0, open_now := true,
    image_url := "https://cdn.onspotx.ai/spots/bookstore.jpg",
    location := ⟨40.7150, -74.0030, "321 Park Ave, New York, NY 10016"⟩ }

def hotel005 : Place :=
  { id := "hotel_005", name := "The Plaza Hotel", category := "hotel",
    description := "Luxury hotel with world-class amenities and service.",
    distance_km := 0, open_now := true,
    image_url := "https://cdn.onspotx.ai/spots/plaza-hotel.jpg",
    location := ⟨40.7160, -74.0080, "768 5th Ave, New York, NY 10019"⟩ }

def attr006 : Place :=
  { id := "attr_006", name := "Brooklyn Bridge", category := "attraction",
    description := "Historic suspension bridge offering breathtaking views.",
    distance_km := 0, open_now := true,
    image_url := "https://cdn.onspotx.ai/spots/brooklyn-bridge.jpg",
    location := ⟨40.7061, -73.9969, "Brooklyn Bridge, New York, NY 10038"⟩ }

def park007 : Place :=
  { id := "park_007", name := "Central Park", category := "park",
    description := "Iconic urban park perfect for walking, jogging, and relaxation.",
    distance_km := 0, open_now := true,
    image_url := "https://cdn.onspotx.ai/spots/central-park.jpg",
    location := ⟨40.7829, -73.9654, "Central Park, New York, NY 10024"⟩ }

def hosp008 : Place :=
  { id := "hosp_008", name := "Mount Sinai Hospital", category := "hospital",
    description := "Leading medical center with comprehensive healthcare services.",
    distance_km := 0, open_now := true,
    image_url := "https://cdn.onspotx.ai/spots/mount-sinai.jpg",
    location := ⟨40.7903, -73.9503, "1 Gustave L. Levy Pl, New York, NY 10029"⟩ }

def gas009 : Place :=
  { id := "gas_009", name := "Shell Gas Station", category := "gas_station",
    description := "Full-service gas station with convenience store.",
    distance_km := 0, open_now := true,
    image_url := "https://cdn.onspotx.ai/spots/shell-station.jpg",
    location := ⟨40.7100, -74.0100, "555 West St, New York, NY 10014"⟩ }

def bank010 : Place :=
  { id := "bank_010", name := "Chase Bank", category := "bank",
    description := "Full-service bank with ATM and financial advisory services.",
    distance_km := 0, open_now := true,
    image_url := "https://cdn.onspotx.ai/spots/chase-bank.jpg",
    location := ⟨40.7110, -74.0020, "999 Wall St, New York, NY 10005"⟩ }

def gym011 : Place :=
  { id := "gym_011", name := "Equinox Fitness", category := "gym",
    description := "Premium fitness club with state-of-the-art equipment.",
    distance_km := 0, open_now := true,
    image_url := "https://cdn.onspotx.ai/spots/equinox.jpg",
    location := ⟨40.7170, -74.0010, "222 Broadway, New York, NY 10038"⟩ }

def pharm012 : Place :=
  { id := "pharm_012", name := "CVS Pharmacy", category := "pharmacy",
    description := "Full-service pharmacy with prescription and over-the-counter medications.",
    distance_km := 0, open_now := true,
    image_url := "https://cdn.onspotx.ai/spots/cvs-pharmacy.jpg",
    location := ⟨40.7080, -74.0060, "111 Houston St, New York, NY 10012"⟩ }

/-- `MockDataService.mockPlaces`: the static fixture list. -/
def mockPlaces : List Place :=
  [rest001, cafe002, bar003, shop004, hotel005, attr006,
   park007, hosp008, gas009, bank010, gym011, pharm012]

/-! ### MockDataService operations, parametrized by the repository list -/

/-- Model of the JS `String.prototype.toLowerCase`: the ASCII case mapping
applied character by character (all category strings in this code are ASCII).
This is the same function as `String.toLower`, written as a structural map
over the character list so that it evaluates by kernel reduction. -/
def jsToLower (s : String) : String := String.mk (s.data.map Char.toLower)

/-- `getAllPlaces()`: returns `[...this.mockPlaces]`, a fresh array holding
the same place records (same value in the embedding). -/
def getAllPlacesOn (repo : List Place) : List Place := repo

/-- `getPlacesByCategory(category)`: case-insensitive exact category filter. -/
def getPlacesByCategoryOn (repo : List Place) (category : String) : List Place :=
  repo.filter (fun place => jsToLower place.category == jsToLower category)

def getAllPlaces : List Place := getAllPlacesOn mockPlaces

def getPlacesByCategory (category : String) : List Place :=
  getPlacesByCategoryOn mockPlaces category

/-- `getPlaceById(id)`. -/
def getPlaceById (id : String) : Option Place :=
  mockPlaces.find? (fun place => place.id == id)

/-- `[...new Set(xs)]`: deduplication keeping first occurrences in order. -/
def jsSetOfList (xs : List String) : List String :=
  xs.foldl (fun acc c => if c ∈ acc then acc else acc ++ [c]) []

/-- `getAvailableCategories()`. -/
def getAvailableCategories : List String :=
  jsSetOfList (mockPlaces.map (·.category))

structure DataStatistics where
  totalPlaces : ℕ
  categoriesCount : ℕ
  openPlaces : ℕ
  closedPlaces : ℕ

/-- `getDataStatistics()`. -/
def getDataStatistics : DataStatistics :=
  { totalPlaces := mockPlaces.length,
    categoriesCount := getAvailableCategories.length,
    openPlaces := (mockPlaces.filter (fun place => place.open_now)).length,
    closedPlaces := (mockPlaces.filter (fun place => !place.open_now)).length }

structure QueryFilters where
  category : Option String
  openNow : Option Bool
  limit : Option ℝ

/-- ECMAScript truncation toward zero (`ToIntegerOrInfinity`). -/
noncomputable def jsTrunc (x : ℝ) : ℤ :=
  if x < 0 then -⌊-x⌋ else ⌊x⌋

/-- `l.slice(0, e)` for a real-valued end index `e`: truncate toward zero,
negative values are relative to the end, then clamp. Always a prefix. -/
noncomputable def jsSliceTo (l : List Place) (e : ℝ) : List Place :=
  let k := jsTrunc e
  if k < 0 then l.take (l.length + k).toNat else l.take k.toNat

/-- `queryPlaces(filters?)`: category filter if truthy (nonempty string),
openNow filter if present, `slice(0, limit)` if limit is truthy and positive. -/
noncomputable def queryPlaces (filters : Option QueryFilters) : List Place :=
  let results := mockPlaces
  let results :=
    match filters with
    | some f =>
      match f.category with
      | some c =>
        if c = "" then results
        else results.filter (fun place => jsToLower place.category == jsToLower c)
      | none => results
    | none => results
  let results :=
    match filters with
    | some f =>
      match f.openNow with
      | some b => results.filter (fun place => place.open_now == b)
      | none => results
    | none => results
  match filters with
  | some f =>
    match f.limit with
    | some lim => if lim ≠ 0 ∧ 0 < lim then jsSliceTo results lim else results
    | none => results
  | none => results

/-! ### DiscoveryService (src/discovery/services/discovery.service.ts) -/

/-- Configuration injected into `DiscoveryService` (`discovery.*` keys;
defaults 5.0 / 50.0 / 50 from src/config/configuration.ts). -/
structure DiscoveryConfig where
  defaultRadius : ℝ
  maxRadius : ℝ
  maxResults : ℝ

def defaultConfig : DiscoveryConfig :=
  { defaultRadius := 5, maxRadius := 50, maxResults := 50 }

/-- The validation errors thrown by `validateQuery`, identified by field. -/
inductive DiscoveryErr where
  | invalidLatitude
  | invalidLongitude
  | invalidRadius
  | invalidLimit
deriving DecidableEq

/-- The guard `query.radius && (query.radius < 0.1 || query.radius > this.maxRadius)`:
truthiness of a number means present and nonzero. -/
def radiusGuardBad (cfg : DiscoveryConfig) : Option ℝ → Prop
  | none => False
  | some r => r ≠ 0 ∧ (r < 0.1 ∨ cfg.maxRadius < r)

/-- The guard `query.limit && (query.limit < 1 || query.limit > this.maxResults)`. -/
def limitGuardBad (cfg : DiscoveryConfig) : Option ℝ → Prop
  | none => False
  | some l => l ≠ 0 ∧ (l < 1 ∨ cfg.maxResults < l)

/-- `DiscoveryService.validateQuery`: throws (here: returns `some` error) on the
first failing check, in source order. Note that it performs no category check. -/
noncomputable def validateQuery (cfg : DiscoveryConfig) (q : DiscoveryQuery) :
    Option DiscoveryErr :=
  if ¬ isValidLatitude q.latitude then some .invalidLatitude
  else if ¬ isValidLongitude q.longitude then some .invalidLongitude
  else if radiusGuardBad cfg q.radius then some .invalidRadius
  else if limitGuardBad cfg q.limit then some .invalidLimit
  else none

/-- JS `x || d` for an optional number `x`: `d` when absent or zero. -/
noncomputable def jsOrNum (x : Option ℝ) (d : ℝ) : ℝ :=
  match x with
  | none => d
  | some v => if v = 0 then d else v

/-- `DiscoveryService.calculateDistances`: `places.map(place => ({...place,
distance_km: DistanceUtil.calculateDistance(centerPoint, place.location)}))`.
Each output record is a fresh copy of the input record with only
`distance_km` replaced. -/
noncomputable def calculateDistances (places : List Place) (centerPoint : Coordinates) :
    List Place :=
  places.map (fun place =>
    { place with distance_km := calculateDistance centerPoint place.location.toCoords })

/-- `DiscoveryService.filterByRadius`. -/
noncomputable def filterByRadius (places : List Place) (radius : ℝ) : List Place :=
  places.filter (fun place => decide (place.distance_km ≤ radius))

/-- `DiscoveryService.sortByDistance`: `places.sort((a, b) => a.distance_km -
b.distance_km)`, a stable ascending sort by `distance_km` (ECMAScript sort
with a numeric comparator is required to be stable), rendered by the stable
`List.mergeSort`. -/
noncomputable def sortByDistance (places : List Place) : List Place :=
  places.mergeSort (fun a b => decide (a.distance_km ≤ b.distance_km))

/-- The candidate fetch of `discoverPlaces`: the ternary
`query.category ? getPlacesByCategory(query.category) : getAllPlaces()`
(the empty string is falsy). -/
def fetchCandidates (repo : List Place) (q : DiscoveryQuery) : List Place :=
  match q.category with
  | some c => if c = "" then getAllPlacesOn repo else getPlacesByCategoryOn repo c
  | none => getAllPlacesOn repo

/-- The body of `DiscoveryService.discoverPlaces` after validation succeeds:
resolve defaults with `||`, fetch candidates, annotate distances, filter by
radius, sort, truncate with `slice(0, limit)`, and assemble the response with
`total` equal to the truncated length. -/
noncomputable def discoverCore (repo : List Place) (cfg : DiscoveryConfig)
    (q : DiscoveryQuery) : DiscoveryResponse :=
  let radius := jsOrNum q.radius cfg.defaultRadius
  let limit := min (jsOrNum q.limit 10) cfg.maxResults
  let allPlaces := fetchCandidates repo q
  let centerPoint : Coordinates := ⟨q.latitude, q.longitude⟩
  let placesWithDistance := calculateDistances allPlaces centerPoint
  let placesInRadius := filterByRadius placesWithDistance radius
  let sortedPlaces := sortByDistance placesInRadius
  let limitedResults := jsSliceTo sortedPlaces limit
  { results := limitedResults,
    total := limitedResults.length,
    query := { latitude := q.latitude, longitude := q.longitude,
               radius := radius, category := q.category, limit := limit } }

/-- `DiscoveryService.discoverPlaces`, with the repository list (the service
field `this.mockPlaces` read by `getAllPlaces` / `getPlacesByCategory`) as an
explicit parameter: validate, then run the pipeline. -/
noncomputable def discoverPlacesOn (repo : List Place) (cfg : DiscoveryConfig)
    (q : DiscoveryQuery) : Except DiscoveryErr DiscoveryResponse :=
  match validateQuery cfg q with
  | some e => .error e
  | none => .ok (discoverCore repo cfg q)

/-- `discoverPlaces` of the deployed service instance, whose repository is the
fixture list. -/
noncomputable def discoverPlaces (cfg : DiscoveryConfig) (q : DiscoveryQuery) :
    Except DiscoveryErr DiscoveryResponse :=
  discoverPlacesOn mockPlaces cfg q

/-- `DiscoveryService.findNearestPlace`: calls `discoverPlaces` with
`radius = this.maxRadius`, `limit = 1` and returns the first result or null;
a thrown validation error propagates. -/
noncomputable def findNearestPlace (cfg : DiscoveryConfig) (latitude longitude : ℝ)
    (category : Option String) : Except DiscoveryErr (Option Place) :=
  match discoverPlaces cfg
      { latitude := latitude, longitude := longitude,
        radius := some cfg.maxRadius, category := category, limit := some 1 } with
  | .error e => .error e
  | .ok response =>
    .ok (match response.results with
         | [] => none
         | p :: _ => some p)

/-! ### Definitions taken from the specification text, for comparison with the
source behavior on the claims that turn on defaulting -/

/-- Modelled from the spec: the effective radius as the specification words it,
`query.radius ?? defaultRadius` (nullish coalescing: present wins, even zero). -/
def specEffectiveRadius (cfg : DiscoveryConfig) (q : DiscoveryQuery) : ℝ :=
  q.radius.getD cfg.defaultRadius

/-- Modelled from the spec: the requested limit, `query.limit` defaulting to 10
only when absent. -/
def specRequestedLimit (q : DiscoveryQuery) : ℝ :=
  q.limit.getD 10

/-! ### Concrete inputs used by the witnesses and counterexamples -/

/-- Latitude out of range. -/
def qLat91 : DiscoveryQuery := ⟨91, -74.0060, none, none, none⟩

/-- Longitude out of range. -/
def qLng181 : DiscoveryQuery := ⟨40.7128, -181, none, none, none⟩

/-- Radius below the 0.1 minimum. -/
def qRadSmall : DiscoveryQuery := ⟨40.7128, -74.0060, some 0.05, none, none⟩

/-- Limit zero: falsy, so the source validation guard skips it. -/
def qLimZero : DiscoveryQuery := ⟨40.7128, -74.0060, none, none, some 0⟩

/-- Unknown category, all other parameters valid. -/
def qMuseum : DiscoveryQuery := ⟨40.7128, -74.0060, some 5, some "museum", some 10⟩

/-- Radius present but zero: passes the source validation (falsy guard), and
`radius || defaultRadius` then replaces it by the default. The center is
0.04 degrees of latitude south of the Trattoria Alfredo fixture. -/
def qRadiusZero : DiscoveryQuery := ⟨40.6730, -74.0050, some 0, some "restaurant", none⟩

/-- Limit present but zero at the same center, radius 5. -/
def qLimitZeroNear : DiscoveryQuery := ⟨40.6730, -74.0050, some 5, some "restaurant", some 0⟩

/-- A plainly valid query. -/
def qValid : DiscoveryQuery := ⟨40.7128, -74.0060, some 5, none, some 10⟩

/-- The Trattoria Alfredo record annotated with its distance from the
`(40.6730, -74.0050)` center: exactly 4.45 km after rounding. -/
def rest001At : Place := { rest001 with distance_km := 4.45 }

/-- The response produced for `qRadiusZero` and for `qLimitZeroNear`. -/
def respAlfredo : DiscoveryResponse :=
  { results := [rest001At], total := 1,
    query := ⟨40.6730, -74.0050, 5, some "restaurant", 10⟩ }

/-- The response produced by the `findNearestPlace` call of the C6 witness. -/
def respMuseum : DiscoveryResponse :=
  { results := [], total := 0,
    query := ⟨40.7128, -74.0060, 50, some "museum", 1⟩ }

/-- The query that `findNearestPlace defaultConfig 40.7128 -74.0060 "museum"`
builds internally. -/
def qNearMuseum : DiscoveryQuery := ⟨40.7128, -74.0060, some 50, some "museum", some 1⟩

/-- Forgetting the transient `distance_km` field (set to its placeholder 0):
two repositories agreeing up to `clearDistance` hold the same base records. -/
def clearDistance (p : Place) : Place := { p with distance_km := 0 }

/-- The fixture repository with every transient distance overwritten by 7. -/
def repoSeven : List Place := mockPlaces.map (fun p => { p with distance_km := 7 })

/-! ### General lemmas about the embedded operations -/

theorem validateQuery_none_iff (cfg : DiscoveryConfig) (q : DiscoveryQuery) :
    validateQuery cfg q = none ↔
      isValidLatitude q.latitude ∧ isValidLongitude q.longitude ∧
      ¬ radiusGuardBad cfg q.radius ∧ ¬ limitGuardBad cfg q.limit := by
  unfold validateQuery
  split_ifs with h1 h2 h3 h4 <;> simp_all

theorem discoverPlacesOn_eq_ok {cfg : DiscoveryConfig} {q : DiscoveryQuery}
    (repo : List Place) (h : validateQuery cfg q = none) :
    discoverPlacesOn repo cfg q = .ok (discoverCore repo cfg q) := by
  unfold discoverPlacesOn
  rw [h]

theorem discoverPlaces_eq_ok {cfg : DiscoveryConfig} {q : DiscoveryQuery}
    (h : validateQuery cfg q = none) :
    discoverPlaces cfg q = .ok (discoverCore mockPlaces cfg q) :=
  discoverPlacesOn_eq_ok mockPlaces h

theorem discoverCore_results (repo : List Place) (cfg : DiscoveryConfig)
    (q : DiscoveryQuery) :
    (discoverCore repo cfg q).results =
      jsSliceTo
        (sortByDistance
          (filterByRadius
            (calculateDistances (fetchCandidates repo q) ⟨q.latitude, q.longitude⟩)
            (jsOrNum q.radius cfg.defaultRadius)))
        (min (jsOrNum q.limit 10) cfg.maxResults) := rfl

theorem jsSliceTo_sublist (l : List Place) (e : ℝ) : (jsSliceTo l e).Sublist l := by
  unfold jsSliceTo
  dsimp only
  split <;> exact List.take_sublist _ _

theorem mem_filterByRadius {l : List Place} {r : ℝ} {p : Place}
    (hp : p ∈ filterByRadius l r) : p ∈ l ∧ p.distance_km ≤ r := by
  unfold filterByRadius at hp
  rcases List.mem_filter.1 hp with ⟨h1, h2⟩
  exact ⟨h1, of_decide_eq_true h2⟩

theorem mem_sortByDistance {l : List Place} {p : Place} :
    p ∈ sortByDistance l ↔ p ∈ l := by
  unfold sortByDistance
  exact List.mem_mergeSort

theorem sortByDistance_pairwise (l : List Place) :
    (sortByDistance l).Pairwise (fun a b => a.distance_km ≤ b.distance_km) := by
  unfold sortByDistance
  refine List.Pairwise.imp (fun hab => of_decide_eq_true hab) ?_
  exact @List.sorted_mergeSort Place
    (fun a b : Place => decide (a.distance_km ≤ b.distance_km))
    (fun a b c h1 h2 =>
      decide_eq_true (le_trans (of_decide_eq_true h1) (of_decide_eq_true h2)))
    (fun a b => by
      rcases le_total a.distance_km b.distance_km with h | h <;> simp [h]) l

theorem mem_calculateDistances {l : List Place} {c : Coordinates} {p : Place} :
    p ∈ calculateDistances l c ↔
      ∃ p0 ∈ l, p = { p0 with distance_km := calculateDistance c p0.location.toCoords } := by
  unfold calculateDistances
  constructor
  · intro hp
    rcases List.mem_map.1 hp with ⟨p0, hp0, rfl⟩
    exact ⟨p0, hp0, rfl⟩
  · rintro ⟨p0, hp0, rfl⟩
    exact List.mem_map.2 ⟨p0, hp0, rfl⟩

/-! ### C9 -/

/-- C9: `getDataStatistics` partitions the fixture data: `openPlaces` (11) plus
`closedPlaces` (1) equals `totalPlaces` (12), which is the length of the
repository list. -/
theorem getDataStatistics_partition :
    getDataStatistics.openPlaces + getDataStatistics.closedPlaces =
        getDataStatistics.totalPlaces ∧
      getDataStatistics.totalPlaces = mockPlaces.length :=
  ⟨rfl, rfl⟩

/-! ### C10 -/

/-- C10: `MockDataService.queryPlaces` with a zero or negative `limit` skips
the limit step entirely: it returns exactly what the same query with no limit
returns, namely all places matching the category and openNow filters. -/
theorem queryPlaces_nonpositive_limit (cat : Option String) (opn : Option Bool)
    (l : ℝ) (h : l ≤ 0) :
    queryPlaces (some ⟨cat, opn, some l⟩) = queryPlaces (some ⟨cat, opn, none⟩) := by
  unfold queryPlaces
  have hno : ¬ (l ≠ 0 ∧ 0 < l) := by
    rintro ⟨h1, h2⟩
    linarith
  simp only [if_neg hno]

/-- Witness for C10 at `limit = -2`, category `cafe`, openNow `true`. -/
theorem queryPlaces_nonpositive_limit_witness :
    (-2 : ℝ) ≤ 0 ∧
      queryPlaces (some ⟨some "cafe", some true, some (-2)⟩) =
        queryPlaces (some ⟨some "cafe", some true, none⟩) :=
  ⟨by norm_num, queryPlaces_nonpositive_limit _ _ _ (by norm_num)⟩

/-! ### C5 -/

/-- C5: for every query that passes validation, the response field `total`
equals the number of places in `results` after truncation to the effective
limit. -/
theorem discover_total_eq_results_length (cfg : DiscoveryConfig)
    (q : DiscoveryQuery) (h : validateQuery cfg q = none) :
    ∃ resp, discoverPlaces cfg q = .ok resp ∧ resp.total = resp.results.length :=
  ⟨discoverCore mockPlaces cfg q, discoverPlaces_eq_ok h, rfl⟩

/-- Witness for C5 at a concrete valid query. -/
theorem discover_total_eq_results_length_witness :
    validateQuery defaultConfig qValid = none ∧
      ∃ resp, discoverPlaces defaultConfig qValid = .ok resp ∧
        resp.total = resp.results.length :=
  ⟨by norm_num [validateQuery, isValidLatitude, isValidLongitude, radiusGuardBad,
      limitGuardBad, qValid, defaultConfig],
   discover_total_eq_results_length _ _
     (by norm_num [validateQuery, isValidLatitude, isValidLongitude, radiusGuardBad,
        limitGuardBad, qValid, defaultConfig])⟩

/-! ### C1 (amended form) and its structural content -/

/-- C1: for every query that passes validation, every place in the results has
`distance_km` at most the effective radius, and the results are sorted
non-decreasing by `distance_km`. Amended per the source defaulting: the
effective radius is `query.radius` when present and nonzero (JS `||`), and
`defaultRadius` otherwise. -/
theorem discover_results_within_radius_sorted (cfg : DiscoveryConfig)
    (q : DiscoveryQuery) (h : validateQuery cfg q = none) :
    ∃ resp, discoverPlaces cfg q = .ok resp ∧
      (∀ p ∈ resp.results, p.distance_km ≤ jsOrNum q.radius cfg.defaultRadius) ∧
      resp.results.Pairwise (fun a b => a.distance_km ≤ b.distance_km) := by
  refine ⟨_, discoverPlaces_eq_ok h, ?_, ?_⟩
  · intro p hp
    rw [discoverCore_results] at hp
    have h1 := (jsSliceTo_sublist _ _).subset hp
    have h2 := mem_sortByDistance.1 h1
    exact (mem_filterByRadius h2).2
  · rw [discoverCore_results]
    exact List.Pairwise.sublist (jsSliceTo_sublist _ _) (sortByDistance_pairwise _)

/-- Witness for the amended C1 at a concrete valid query. -/
theorem discover_results_within_radius_sorted_witness :
    validateQuery defaultConfig qValid = none ∧
      ∃ resp, discoverPlaces defaultConfig qValid = .ok resp ∧
        (∀ p ∈ resp.results,
          p.distance_km ≤ jsOrNum qValid.radius defaultConfig.defaultRadius) ∧
        resp.results.Pairwise (fun a b => a.distance_km ≤ b.distance_km) :=
  ⟨by norm_num [validateQuery, isValidLatitude, isValidLongitude, radiusGuardBad,
      limitGuardBad, qValid, defaultConfig],
   discover_results_within_radius_sorted _ _
     (by norm_num [validateQuery, isValidLatitude, isValidLongitude, radiusGuardBad,
        limitGuardBad, qValid, defaultConfig])⟩

/-! ### C4 (amended form) -/

theorem jsSliceTo_length_le (l : List Place) (e : ℝ) (he : 0 ≤ e) :
    ((jsSliceTo l e).length : ℝ) ≤ e := by
  have hk : jsTrunc e = ⌊e⌋ := by
    unfold jsTrunc
    rw [if_neg (not_lt.2 he)]
  have hf : (0 : ℤ) ≤ ⌊e⌋ := Int.floor_nonneg.2 he
  unfold jsSliceTo
  rw [hk]
  dsimp only
  rw [if_neg (not_lt.2 hf)]
  calc ((l.take ⌊e⌋.toNat).length : ℝ) ≤ (⌊e⌋.toNat : ℝ) := by
        exact_mod_cast List.length_take_le _ _
    _ = ((⌊e⌋ : ℤ) : ℝ) := by
        exact_mod_cast congrArg (fun z : ℤ => (z : ℝ)) (Int.toNat_of_nonneg hf)
    _ ≤ e := Int.floor_le e

theorem jsOrNum_pos_of_valid {cfg : DiscoveryConfig} {x : Option ℝ}
    (h : ¬ limitGuardBad cfg x) : 0 < jsOrNum x 10 := by
  cases x with
  | none => norm_num [jsOrNum]
  | some l =>
    simp only [limitGuardBad] at h
    push_neg at h
    by_cases hl : l = 0
    · norm_num [jsOrNum, hl]
    · have h1 := (h hl).1
      simp only [jsOrNum]
      rw [if_neg hl]
      linarith

/-- C4: for every query that passes validation, the number of results is at
most `min(requestedLimit, configuredMaxResults)`. Amended per the source
defaulting: the requested limit defaults to 10 when absent or zero (JS `||`).
The configuration hypothesis `0 ≤ maxResults` matches the documented
configuration range. -/
theorem discover_results_length_bound (cfg : DiscoveryConfig)
    (q : DiscoveryQuery) (h : validateQuery cfg q = none)
    (hm : 0 ≤ cfg.maxResults) :
    ∃ resp, discoverPlaces cfg q = .ok resp ∧
      (resp.results.length : ℝ) ≤ min (jsOrNum q.limit 10) cfg.maxResults := by
  refine ⟨_, discoverPlaces_eq_ok h, ?_⟩
  rw [discoverCore_results]
  have hbad := ((validateQuery_none_iff cfg q).1 h).2.2.2
  have hpos : 0 < jsOrNum q.limit 10 := jsOrNum_pos_of_valid hbad
  exact jsSliceTo_length_le _ _ (le_min (le_of_lt hpos) hm)

/-- Witness for the amended C4 at a concrete valid query. -/
theorem discover_results_length_bound_witness :
    validateQuery defaultConfig qValid = none ∧
      (0 : ℝ) ≤ defaultConfig.maxResults ∧
      ∃ resp, discoverPlaces defaultConfig qValid = .ok resp ∧
        (resp.results.length : ℝ) ≤
          min (jsOrNum qValid.limit 10) defaultConfig.maxResults :=
  ⟨by norm_num [validateQuery, isValidLatitude, isValidLongitude, radiusGuardBad,
      limitGuardBad, qValid, defaultConfig],
   by norm_num [defaultConfig],
   discover_results_length_bound _ _
     (by norm_num [validateQuery, isValidLatitude, isValidLongitude, radiusGuardBad,
        limitGuardBad, qValid, defaultConfig])
     (by norm_num [defaultConfig])⟩

/-! ### C2: evaluation of the four validation cases -/

/-- C2 evaluation: latitude 91, longitude -181 and radius 0.05 each make
`discoverPlaces` fail with the error naming the offending field, but limit 0
does NOT fail: the guard `query.limit && ...` treats 0 as falsy, so the query
passes validation and the call returns a successful response. -/
theorem discover_validation_cases :
    discoverPlaces defaultConfig qLat91 = .error .invalidLatitude ∧
      discoverPlaces defaultConfig qLng181 = .error .invalidLongitude ∧
      discoverPlaces defaultConfig qRadSmall = .error .invalidRadius ∧
      validateQuery defaultConfig qLimZero = none ∧
      ∃ resp, discoverPlaces defaultConfig qLimZero = .ok resp := by
  have h1 : validateQuery defaultConfig qLat91 = some .invalidLatitude := by
    norm_num [validateQuery, isValidLatitude, qLat91]
  have h2 : validateQuery defaultConfig qLng181 = some .invalidLongitude := by
    norm_num [validateQuery, isValidLatitude, isValidLongitude, qLng181]
  have h3 : validateQuery defaultConfig qRadSmall = some .invalidRadius := by
    norm_num [validateQuery, isValidLatitude, isValidLongitude, radiusGuardBad,
      qRadSmall, defaultConfig]
  have h4 : validateQuery defaultConfig qLimZero = none := by
    norm_num [validateQuery, isValidLatitude, isValidLongitude, radiusGuardBad,
      limitGuardBad, qLimZero, defaultConfig]
  refine ⟨?_, ?_, ?_, h4, ⟨_, discoverPlaces_eq_ok h4⟩⟩ <;>
    unfold discoverPlaces discoverPlacesOn
  · rw [h1]
  · rw [h2]
  · rw [h3]

/-! ### C3: unknown categories pass the service validation -/

/-- Every fixture category is lowercase and belongs to the known category set. -/
theorem mockPlaces_categories_known :
    ∀ p ∈ mockPlaces, jsToLower p.category ∈ placeCategoryValues := by
  decide

theorem getPlacesByCategoryOn_eq_nil {c : String}
    (hc : jsToLower c ∉ placeCategoryValues) :
    getPlacesByCategoryOn mockPlaces c = [] := by
  unfold getPlacesByCategoryOn
  rw [List.filter_eq_nil_iff]
  intro p hp hbeq
  have h1 : jsToLower p.category = jsToLower c := eq_of_beq hbeq
  exact hc (h1 ▸ mockPlaces_categories_known p hp)

theorem discoverCore_results_empty_of_unknown_category {cfg : DiscoveryConfig}
    {q : DiscoveryQuery} {c : String} (hcat : q.category = some c) (hne : c ≠ "")
    (hc : jsToLower c ∉ placeCategoryValues) :
    (discoverCore mockPlaces cfg q).results = [] := by
  rw [discoverCore_results]
  have hfetch : fetchCandidates mockPlaces q = [] := by
    unfold fetchCandidates
    rw [hcat]
    simp only [if_neg hne]
    exact getPlacesByCategoryOn_eq_nil hc
  rw [hfetch]
  unfold calculateDistances filterByRadius sortByDistance jsSliceTo
  simp

/-- C3 counterexample: the concrete query with the unknown category `museum`
and all other parameters valid passes the service validation and succeeds
(with empty results); `discoverPlaces` raises no error at all, contradicting
the claim that it fails with an `InvalidArgument` error. -/
theorem discover_unknown_category_cex :
    jsToLower "museum" ∉ placeCategoryValues ∧
      validateQuery defaultConfig qMuseum = none ∧
      ∃ resp, discoverPlaces defaultConfig qMuseum = .ok resp ∧ resp.results = [] := by
  have hv : validateQuery defaultConfig qMuseum = none := by
    norm_num [validateQuery, isValidLatitude, isValidLongitude, radiusGuardBad,
      limitGuardBad, qMuseum, defaultConfig]
  refine ⟨by decide, hv, ⟨_, discoverPlaces_eq_ok hv, ?_⟩⟩
  exact discoverCore_results_empty_of_unknown_category
    (show qMuseum.category = some "museum" from rfl) (by decide) (by decide)

/-- C3 amended: the service itself does not validate the category. A query
whose category is present, nonempty and (lowercased) not in the known
category set passes `validateQuery` (provided the numeric fields are valid),
and `discoverPlaces` succeeds with empty results, because the repository
category pre-filter matches nothing. Category membership is enforced only by
the DTO validation layer (IsEnum on `DiscoveryQueryDto`) before the service
is invoked. -/
theorem discover_unknown_category_ok_empty (cfg : DiscoveryConfig)
    (q : DiscoveryQuery) (c : String) (hcat : q.category = some c) (hne : c ≠ "")
    (hc : jsToLower c ∉ placeCategoryValues) (h : validateQuery cfg q = none) :
    ∃ resp, discoverPlaces cfg q = .ok resp ∧ resp.results = [] :=
  ⟨_, discoverPlaces_eq_ok h,
    discoverCore_results_empty_of_unknown_category hcat hne hc⟩

/-- Witness for the amended C3 at the concrete `museum` query. -/
theorem discover_unknown_category_ok_empty_witness :
    qMuseum.category = some "museum" ∧ "museum" ≠ "" ∧
      jsToLower "museum" ∉ placeCategoryValues ∧
      validateQuery defaultConfig qMuseum = none ∧
      ∃ resp, discoverPlaces defaultConfig qMuseum = .ok resp ∧ resp.results = [] :=
  ⟨rfl, by decide, by decide,
   by norm_num [validateQuery, isValidLatitude, isValidLongitude, radiusGuardBad,
      limitGuardBad, qMuseum, defaultConfig],
   discover_unknown_category_ok_empty _ _ "museum" rfl (by decide) (by decide)
     (by norm_num [validateQuery, isValidLatitude, isValidLongitude, radiusGuardBad,
        limitGuardBad, qMuseum, defaultConfig])⟩

/-! ### C6: findNearestPlace delegates to discoverPlaces -/

/-- C6: for every latitude, longitude and optional category,
`findNearestPlace` returns exactly the first result of `discoverPlaces`
invoked with `radius = configuredMaxRadius` and `limit = 1`, and returns
null (not an error) when that call yields no results. -/
theorem findNearestPlace_eq_first (cfg : DiscoveryConfig) (lat lng : ℝ)
    (cat : Option String) :
    findNearestPlace cfg lat lng cat =
        (discoverPlaces cfg ⟨lat, lng, some cfg.maxRadius, cat, some 1⟩).map
          (fun r => r.results.head?) ∧
      ∀ resp, discoverPlaces cfg ⟨lat, lng, some cfg.maxRadius, cat, some 1⟩ = .ok resp →
        resp.results = [] → findNearestPlace cfg lat lng cat = .ok none := by
  constructor
  · unfold findNearestPlace
    cases hd : discoverPlaces cfg ⟨lat, lng, some cfg.maxRadius, cat, some 1⟩ with
    | error e => rfl
    | ok resp =>
      rcases resp with ⟨rs, tot, qe⟩
      cases rs <;> rfl
  · intro resp hd hres
    unfold findNearestPlace
    rw [hd]
    dsimp only
    rw [hres]

/-- Witness for C6: with category `museum` nothing is in range, the discovery
call returns an empty-result response, and `findNearestPlace` returns null
rather than an error. -/
theorem findNearestPlace_eq_first_witness :
    discoverPlaces defaultConfig qNearMuseum = .ok respMuseum ∧
      respMuseum.results = [] ∧
      findNearestPlace defaultConfig 40.7128 (-74.0060) (some "museum") = .ok none := by
  have hv : validateQuery defaultConfig qNearMuseum = none := by
    norm_num [validateQuery, isValidLatitude, isValidLongitude, radiusGuardBad,
      limitGuardBad, qNearMuseum, defaultConfig]
  have hres : (discoverCore mockPlaces defaultConfig qNearMuseum).results = [] :=
    discoverCore_results_empty_of_unknown_category
      (show qNearMuseum.category = some "museum" from rfl) (by decide) (by decide)
  have hcore : discoverCore mockPlaces defaultConfig qNearMuseum = respMuseum := by
    have h0 : (discoverCore mockPlaces defaultConfig qNearMuseum).total = 0 := by
      have : (discoverCore mockPlaces defaultConfig qNearMuseum).total =
          (discoverCore mockPlaces defaultConfig qNearMuseum).results.length := rfl
      rw [this, hres]
      rfl
    have hq : (discoverCore mockPlaces defaultConfig qNearMuseum).query =
        respMuseum.query := by
      show EffectiveQuery.mk _ _ _ _ _ = _
      unfold respMuseum qNearMuseum
      norm_num [jsOrNum, defaultConfig]
    rcases hcr : discoverCore mockPlaces defaultConfig qNearMuseum with ⟨rs, tot, qe⟩
    rw [hcr] at hres h0 hq
    simp only at hres h0 hq
    rw [hres, h0, hq]
    rfl
  have hdp : discoverPlaces defaultConfig qNearMuseum = .ok respMuseum := by
    rw [discoverPlaces_eq_ok hv, hcore]
  refine ⟨hdp, rfl, ?_⟩
  exact (findNearestPlace_eq_first defaultConfig 40.7128 (-74.0060) (some "museum")).2
    respMuseum hdp rfl

/-! ### C7: symmetry of the distance and zero on identical points -/

theorem atan2_zero_one : atan2 0 1 = 0 := by
  unfold atan2
  rw [if_pos (by norm_num : (0:ℝ) < 1)]
  norm_num [Real.arctan_zero]

/-- C7: for coordinates in the valid ranges, the Haversine distance is
symmetric, and it is zero on identical points. -/
theorem calculateDistance_symm_and_self (a b : Coordinates)
    (ha : isValidCoordinates a) (hb : isValidCoordinates b) :
    calculateDistance a b = calculateDistance b a ∧ calculateDistance a a = 0 := by
  constructor
  · have key : ∀ x y : Coordinates,
        Real.sin (toRadians (y.lat - x.lat) / 2) * Real.sin (toRadians (y.lat - x.lat) / 2) +
          Real.cos (toRadians x.lat) * Real.cos (toRadians y.lat) *
            Real.sin (toRadians (y.lng - x.lng) / 2) *
            Real.sin (toRadians (y.lng - x.lng) / 2) =
        Real.sin (toRadians (x.lat - y.lat) / 2) * Real.sin (toRadians (x.lat - y.lat) / 2) +
          Real.cos (toRadians y.lat) * Real.cos (toRadians x.lat) *
            Real.sin (toRadians (x.lng - y.lng) / 2) *
            Real.sin (toRadians (x.lng - y.lng) / 2) := by
      intro x y
      have h1 : toRadians (y.lat - x.lat) = -(toRadians (x.lat - y.lat)) := by
        unfold toRadians
        ring
      have h2 : toRadians (y.lng - x.lng) = -(toRadians (x.lng - y.lng)) := by
        unfold toRadians
        ring
      rw [h1, h2, neg_div, neg_div, Real.sin_neg, Real.sin_neg]
      ring
    simp only [calculateDistance]
    rw [key a b]
  · simp only [calculateDistance]
    rw [sub_self, sub_self]
    have h0 : toRadians 0 = 0 := by
      unfold toRadians
      ring
    rw [h0, zero_div, Real.sin_zero]
    norm_num
    rw [atan2_zero_one]
    unfold mathRound EARTH_RADIUS_KM
    have hfl : ⌊(6371:ℝ) * (2 * 0) * 100 + 1/2⌋ = (0:ℤ) := by
      rw [Int.floor_eq_iff]
      norm_num
    rw [hfl]
    norm_num

/-- Witness for C7 at two concrete valid coordinate pairs. -/
theorem calculateDistance_symm_and_self_witness :
    isValidCoordinates ⟨40.7128, -74.0060⟩ ∧ isValidCoordinates ⟨40.7130, -74.0050⟩ ∧
      (calculateDistance ⟨40.7128, -74.0060⟩ ⟨40.7130, -74.0050⟩ =
          calculateDistance ⟨40.7130, -74.0050⟩ ⟨40.7128, -74.0060⟩ ∧
        calculateDistance ⟨40.7128, -74.0060⟩ ⟨40.7128, -74.0060⟩ = 0) :=
  ⟨by norm_num [isValidCoordinates, isValidLatitude, isValidLongitude],
   by norm_num [isValidCoordinates, isValidLatitude, isValidLongitude],
   calculateDistance_symm_and_self _ _
     (by norm_num [isValidCoordinates, isValidLatitude, isValidLongitude])
     (by norm_num [isValidCoordinates, isValidLatitude, isValidLongitude])⟩

/-! ### Exact evaluation of the distance on a same-longitude pair -/

/-- On a same-longitude pair with a small nonnegative latitude difference the
Haversine formula collapses: the half-angle is recovered exactly by
`arctan (tan θ) = θ`, so the distance is the arc `R * Δlat_rad`, rounded. -/
theorem calculateDistance_lat_only (lat1 lat2 lng : ℝ)
    (h0 : 0 ≤ (lat2 - lat1) * (Real.pi / 180) / 2)
    (h1 : (lat2 - lat1) * (Real.pi / 180) / 2 < Real.pi / 2) :
    calculateDistance ⟨lat1, lng⟩ ⟨lat2, lng⟩ =
      mathRound (EARTH_RADIUS_KM * ((lat2 - lat1) * (Real.pi / 180)) * 100) / 100 := by
  have hpi := Real.pi_pos
  simp only [calculateDistance, toRadians]
  rw [sub_self, zero_mul, zero_div, Real.sin_zero]
  set θ := (lat2 - lat1) * (Real.pi / 180) / 2 with hθ
  have hsin : 0 ≤ Real.sin θ :=
    Real.sin_nonneg_of_nonneg_of_le_pi h0 (le_of_lt (lt_of_lt_of_le h1 (by linarith)))
  have hcos : 0 < Real.cos θ :=
    Real.cos_pos_of_mem_Ioo ⟨by linarith, h1⟩
  have hs1 : Real.sqrt (Real.sin θ * Real.sin θ) = Real.sin θ := Real.sqrt_mul_self hsin
  have hpyth : 1 - Real.sin θ * Real.sin θ = Real.cos θ * Real.cos θ := by
    have hp := Real.sin_sq_add_cos_sq θ
    nlinarith [hp]
  have hs2 : Real.sqrt (1 - Real.sin θ * Real.sin θ) = Real.cos θ := by
    rw [hpyth]
    exact Real.sqrt_mul_self (le_of_lt hcos)
  norm_num
  rw [hs1, hs2]
  unfold atan2
  rw [if_pos hcos, ← Real.tan_eq_sin_div_cos, Real.arctan_tan (by linarith) h1]
  have h2θ : 2 * θ = (lat2 - lat1) * (Real.pi / 180) := by
    rw [hθ]
    ring
  rw [h2θ]

/-- The center `(40.6730, -74.0050)` is 0.04 degrees of latitude due south of
the Trattoria Alfredo fixture; the rounded Haversine distance is 4.45 km. -/
theorem calculateDistance_alfredo :
    calculateDistance ⟨40.6730, -74.0050⟩ rest001.location.toCoords = 4.45 := by
  have hpilo := Real.pi_gt_d6
  have hpihi := Real.pi_lt_d6
  have hpi := Real.pi_pos
  show calculateDistance ⟨40.6730, -74.0050⟩ ⟨40.7130, -74.0050⟩ = 4.45
  rw [calculateDistance_lat_only 40.6730 40.7130 (-74.0050)
    (by nlinarith) (by nlinarith)]
  unfold mathRound EARTH_RADIUS_KM
  have hfl : ⌊(6371:ℝ) * ((40.7130 - 40.6730) * (Real.pi / 180)) * 100 + 1/2⌋ =
      (445 : ℤ) := by
    rw [Int.floor_eq_iff]
    constructor
    · push_cast
      nlinarith
    · push_cast
      nlinarith
  rw [hfl]
  norm_num

/-! ### Concrete pipeline evaluation at the Alfredo center -/

theorem getPlacesByCategory_restaurant :
    getPlacesByCategoryOn mockPlaces "restaurant" = [rest001] := rfl

/-- Full evaluation of the post-validation pipeline for a query centered at
`(40.6730, -74.0050)` with category `restaurant`, effective radius 5 and
effective limit 10: the single restaurant fixture is annotated with distance
4.45, passes the radius filter, and is the only result. -/
theorem discoverCore_alfredo_results (q : DiscoveryQuery)
    (hlat : q.latitude = 40.6730) (hlng : q.longitude = -74.0050)
    (hcat : q.category = some "restaurant")
    (hrad : jsOrNum q.radius defaultConfig.defaultRadius = 5)
    (hlim : min (jsOrNum q.limit 10) defaultConfig.maxResults = 10) :
    (discoverCore mockPlaces defaultConfig q).results = [rest001At] := by
  rw [discoverCore_results]
  have hfetch : fetchCandidates mockPlaces q = [rest001] := by
    unfold fetchCandidates
    rw [hcat]
    dsimp only
    rw [if_neg (by decide : ¬ ("restaurant" : String) = "")]
    exact getPlacesByCategory_restaurant
  rw [hfetch, hlat, hlng, hrad, hlim]
  have hdist : calculateDistances [rest001] ⟨40.6730, -74.0050⟩ = [rest001At] := by
    unfold calculateDistances
    rw [List.map_cons, List.map_nil, calculateDistance_alfredo]
    rfl
  rw [hdist]
  have hfil : filterByRadius [rest001At] 5 = [rest001At] := by
    unfold filterByRadius
    rw [List.filter_cons, decide_eq_true (show rest001At.distance_km ≤ 5 by
      norm_num [rest001At])]
    rfl
  rw [hfil]
  have hsort : sortByDistance [rest001At] = [rest001At] := by
    unfold sortByDistance
    exact List.mergeSort_singleton _
  rw [hsort]
  have hk : jsTrunc (10:ℝ) = 10 := by
    unfold jsTrunc
    rw [if_neg (by norm_num : ¬ (10:ℝ) < 0)]
    exact_mod_cast Int.floor_intCast 10
  unfold jsSliceTo
  rw [hk]
  rfl

/-! ### C1 counterexample: radius present but zero -/

/-- C1 counterexample: `qRadiusZero` carries `radius = 0`, which passes the
source validation (falsy guard) — so the query "passes validation" — yet the
call returns a result whose `distance_km` (4.45) exceeds the claim's effective
radius `query.radius = 0`, because `radius || defaultRadius` silently replaced
the present zero by the default 5. -/
theorem discover_radius_zero_cex :
    validateQuery defaultConfig qRadiusZero = none ∧
      ∃ resp, discoverPlaces defaultConfig qRadiusZero = .ok resp ∧
        ∃ p ∈ resp.results,
          specEffectiveRadius defaultConfig qRadiusZero < p.distance_km := by
  have hv : validateQuery defaultConfig qRadiusZero = none := by
    norm_num [validateQuery, isValidLatitude, isValidLongitude, radiusGuardBad,
      limitGuardBad, qRadiusZero, defaultConfig]
  refine ⟨hv, ⟨_, discoverPlaces_eq_ok hv, ?_⟩⟩
  have hres : (discoverCore mockPlaces defaultConfig qRadiusZero).results =
      [rest001At] :=
    discoverCore_alfredo_results qRadiusZero rfl rfl rfl
      (by norm_num [jsOrNum, qRadiusZero, defaultConfig])
      (by norm_num [jsOrNum, qRadiusZero, defaultConfig])
  rw [hres]
  refine ⟨rest001At, by simp, ?_⟩
  norm_num [specEffectiveRadius, qRadiusZero, rest001At]

/-! ### C4 counterexample: limit present but zero -/

/-- C4 counterexample: `qLimitZeroNear` carries `limit = 0`, which passes the
source validation (falsy guard), yet the call returns 1 result: the guard
`query.limit || 10` treats the present zero as absent and uses 10, so the
claimed bound `min(requestedLimit, maxResults) = 0` is exceeded. -/
theorem discover_limit_zero_cex :
    validateQuery defaultConfig qLimitZeroNear = none ∧
      ∃ resp, discoverPlaces defaultConfig qLimitZeroNear = .ok resp ∧
        min (specRequestedLimit qLimitZeroNear) defaultConfig.maxResults <
          (resp.results.length : ℝ) := by
  have hv : validateQuery defaultConfig qLimitZeroNear = none := by
    norm_num [validateQuery, isValidLatitude, isValidLongitude, radiusGuardBad,
      limitGuardBad, qLimitZeroNear, defaultConfig]
  refine ⟨hv, ⟨_, discoverPlaces_eq_ok hv, ?_⟩⟩
  have hres : (discoverCore mockPlaces defaultConfig qLimitZeroNear).results =
      [rest001At] :=
    discoverCore_alfredo_results qLimitZeroNear rfl rfl rfl
      (by norm_num [jsOrNum, qLimitZeroNear, defaultConfig])
      (by norm_num [jsOrNum, qLimitZeroNear, defaultConfig])
  rw [hres]
  norm_num [specRequestedLimit, qLimitZeroNear, defaultConfig]

/-! ### C8: the repository base records are never mutated

In the embedding, in-place JS mutation is rendered by what each operation
does to values. `getAllPlaces` returns a fresh array `[...this.mockPlaces]`,
`filter` and `map` allocate fresh arrays, the object spread `{...place}`
allocates fresh objects, and `sort` mutates only the fresh filtered array, so
no source operation writes the repository field or a stored record; the
repository therefore appears as a read-only parameter. The two provable
renderings of the frame property are: every returned place is a fresh copy of
a repository record with only `distance_km` recomputed, and the output never
depends on the stored (transient) `distance_km` values. -/

theorem calculateDistances_congr {l1 l2 : List Place} (c : Coordinates)
    (h : l1.map clearDistance = l2.map clearDistance) :
    calculateDistances l1 c = calculateDistances l2 c := by
  have key : ∀ l : List Place, calculateDistances l c = (l.map clearDistance).map
      (fun p => { p with distance_km := calculateDistance c p.location.toCoords }) := by
    intro l
    unfold calculateDistances
    rw [List.map_map]
    rfl
  rw [key l1, key l2, h]

theorem filter_map_clear {l1 l2 : List Place} (f : Place → Bool)
    (hf : ∀ p, f (clearDistance p) = f p)
    (h : l1.map clearDistance = l2.map clearDistance) :
    (l1.filter f).map clearDistance = (l2.filter f).map clearDistance := by
  induction l1 generalizing l2 with
  | nil =>
    cases l2 with
    | nil => rfl
    | cons b t => simp at h
  | cons a t ih =>
    cases l2 with
    | nil => simp at h
    | cons b t2 =>
      simp only [List.map_cons, List.cons.injEq] at h
      obtain ⟨hab, ht⟩ := h
      have hfab : f a = f b := by
        rw [← hf a, ← hf b, hab]
      simp only [List.filter_cons]
      rw [hfab]
      cases hfb : f b with
      | false => exact ih ht
      | true =>
        simp only [if_pos]
        simp only [List.map_cons]
        exact congrArg₂ List.cons hab (ih ht)

theorem fetchCandidates_map_clear {repo1 repo2 : List Place} (q : DiscoveryQuery)
    (h : repo1.map clearDistance = repo2.map clearDistance) :
    (fetchCandidates repo1 q).map clearDistance =
      (fetchCandidates repo2 q).map clearDistance := by
  unfold fetchCandidates getAllPlacesOn getPlacesByCategoryOn
  cases q.category with
  | none => exact h
  | some c =>
    dsimp only
    by_cases hc : c = ""
    · rw [if_pos hc, if_pos hc]
      exact h
    · rw [if_neg hc, if_neg hc]
      exact filter_map_clear _ (fun p => rfl) h

theorem discoverCore_congr {repo1 repo2 : List Place} (cfg : DiscoveryConfig)
    (q : DiscoveryQuery) (h : repo1.map clearDistance = repo2.map clearDistance) :
    discoverCore repo1 cfg q = discoverCore repo2 cfg q := by
  have hcd : calculateDistances (fetchCandidates repo1 q) ⟨q.latitude, q.longitude⟩ =
      calculateDistances (fetchCandidates repo2 q) ⟨q.latitude, q.longitude⟩ :=
    calculateDistances_congr _ (fetchCandidates_map_clear q h)
  simp only [discoverCore]
  rw [hcd]

/-- C8: `discoverPlaces` never mutates the repository base records. Rendered
in the value embedding: (1) every place in the results is a fresh annotated
copy of a repository record — all fields except `distance_km` are those of a
stored place, and `distance_km` is freshly recomputed from the query center;
(2) the output is entirely independent of the stored `distance_km` values, so
no call can observe a change of the transient field by a previous call. -/
theorem discover_no_mutation (cfg : DiscoveryConfig) (q : DiscoveryQuery) :
    (∀ resp, discoverPlaces cfg q = .ok resp →
      ∀ p ∈ resp.results, ∃ p0 ∈ mockPlaces,
        p = { p0 with distance_km :=
                calculateDistance ⟨q.latitude, q.longitude⟩ p0.location.toCoords }) ∧
    (∀ repo1 repo2 : List Place,
      repo1.map clearDistance = repo2.map clearDistance →
      discoverPlacesOn repo1 cfg q = discoverPlacesOn repo2 cfg q) := by
  constructor
  · intro resp hok p hp
    unfold discoverPlaces discoverPlacesOn at hok
    cases hv : validateQuery cfg q with
    | some e =>
      rw [hv] at hok
      exact absurd hok (by simp)
    | none =>
      rw [hv] at hok
      have hok2 : (Except.ok (discoverCore mockPlaces cfg q) :
          Except DiscoveryErr DiscoveryResponse) = .ok resp := hok
      have hresp : discoverCore mockPlaces cfg q = resp := by
        injection hok2
      rw [← hresp] at hp
      rw [discoverCore_results] at hp
      have h1 := (jsSliceTo_sublist _ _).subset hp
      have h2 := mem_sortByDistance.1 h1
      have h3 := (mem_filterByRadius h2).1
      rcases mem_calculateDistances.1 h3 with ⟨p0, hp0, rfl⟩
      refine ⟨p0, ?_, rfl⟩
      unfold fetchCandidates getAllPlacesOn getPlacesByCategoryOn at hp0
      cases hqc : q.category with
      | none =>
        rw [hqc] at hp0
        exact hp0
      | some c =>
        rw [hqc] at hp0
        dsimp only at hp0
        by_cases hc : c = ""
        · rw [if_pos hc] at hp0
          exact hp0
        · rw [if_neg hc] at hp0
          exact List.mem_of_mem_filter hp0
  · intro repo1 repo2 h
    unfold discoverPlacesOn
    cases hv : validateQuery cfg q with
    | some e => rfl
    | none => exact congrArg Except.ok (discoverCore_congr cfg q h)

/-- Witness for C8 at the Alfredo query: the single result is the stored
restaurant record with only `distance_km` replaced (by 4.45), and replacing
every stored transient distance by 7 leaves the output unchanged. -/
theorem discover_no_mutation_witness :
    discoverPlaces defaultConfig qLimitZeroNear =
        .ok (discoverCore mockPlaces defaultConfig qLimitZeroNear) ∧
      rest001At ∈ (discoverCore mockPlaces defaultConfig qLimitZeroNear).results ∧
      (∃ p0 ∈ mockPlaces,
        rest001At = { p0 with distance_km :=
          (calculateDistance ⟨qLimitZeroNear.latitude, qLimitZeroNear.longitude⟩
            p0.location.toCoords) }) ∧
      mockPlaces.map clearDistance = repoSeven.map clearDistance ∧
      discoverPlacesOn mockPlaces defaultConfig qLimitZeroNear =
        discoverPlacesOn repoSeven defaultConfig qLimitZeroNear := by
  have hv : validateQuery defaultConfig qLimitZeroNear = none := by
    norm_num [validateQuery, isValidLatitude, isValidLongitude, radiusGuardBad,
      limitGuardBad, qLimitZeroNear, defaultConfig]
  have hok := discoverPlaces_eq_ok hv
  have hres : (discoverCore mockPlaces defaultConfig qLimitZeroNear).results =
      [rest001At] :=
    discoverCore_alfredo_results qLimitZeroNear rfl rfl rfl
      (by norm_num [jsOrNum, qLimitZeroNear, defaultConfig])
      (by norm_num [jsOrNum, qLimitZeroNear, defaultConfig])
  have hmem : rest001At ∈ (discoverCore mockPlaces defaultConfig qLimitZeroNear).results := by
    rw [hres]
    exact List.mem_singleton.2 rfl
  have hclear : mockPlaces.map clearDistance = repoSeven.map clearDistance := by
    unfold repoSeven
    rw [List.map_map]
    rfl
  exact ⟨hok, hmem,
    (discover_no_mutation defaultConfig qLimitZeroNear).1 _ hok _ hmem,
    hclear,
    (discover_no_mutation defaultConfig qLimitZeroNear).2 _ _ hclear⟩

end OnSpotX
